import Mathlib

/-!
Verification of the `xss` package (go-xss-query): a shallow embedding of
`src/xss/xss.go` together with theorems about its decode logic, error paths,
locking discipline and finalizer.

Machine integers are modelled as `Nat`/`Int` with explicit two's-complement
wraparound where Go's `time.Duration` (an `int64` count of nanoseconds)
can overflow.
-/

namespace Xss

/-! ## Protocol constants

The raw codes compared against in `Client.Query` come from the X11 header
`X11/extensions/saver.h`; they are fixed by the X protocol:
`ScreenSaverOff = 0`, `ScreenSaverOn = 1`, `ScreenSaverCycle = 2`,
`ScreenSaverDisabled = 3`, `ScreenSaverBlanked = 0`,
`ScreenSaverInternal = 1`, `ScreenSaverExternal = 2`. -/

def ScreenSaverOff : Nat := 0

def ScreenSaverOn : Nat := 1

def ScreenSaverCycle : Nat := 2

def ScreenSaverDisabled : Nat := 3

def ScreenSaverBlanked : Nat := 0

def ScreenSaverInternal : Nat := 1

def ScreenSaverExternal : Nat := 2

/-! ## Domain model (`Kind`, `Info`) -/

/-- Go: `type Kind int`.  Values `0`, `1`, `2` are named `Blanked`,
`Internal`, `External`; other `Int` values are representable (Go's `Kind`
is an integer type) but are never produced by the decode switch. -/
abbrev Kind := Int

/-- Go: `Blanked Kind = iota` (value 0, the zero value of `Kind`). -/
def Blanked : Kind := 0

/-- Go: `Internal` (value 1). -/
def Internal : Kind := 1

/-- Go: `External` (value 2). -/
def External : Kind := 2

/-- Go: `func (k Kind) String() string` — the `switch` over `k` with the
fallthrough result `"unknown"`. -/
def kindString (k : Kind) : String :=
  if k = Blanked then "blanked"
  else if k = Internal then "internal"
  else if k = External then "external"
  else "unknown"

/-- Go: `type Info struct`.  The three `time.Duration` fields are `int64`
nanosecond counts, modelled as `Int` (wraparound is applied at the point
of conversion, in `durationOfMillis`). -/
@[ext]
structure Info where
  Enabled : Bool
  Active : Bool
  Kind : Kind
  Countdown : Int
  ActiveTime : Int
  IdleTime : Int
deriving DecidableEq

/-- The Go zero value of `Info`: all fields zero / `false`; the `Kind`
field's zero value coincides with `Blanked`. -/
def Info.zero : Info :=
  { Enabled := false
    Active := false
    Kind := Blanked
    Countdown := 0
    ActiveTime := 0
    IdleTime := 0 }

/-! ## Raw replies and duration conversion -/

/-- The fields of one `XScreenSaverInfo` reply that `Client.Query` reads,
together with the `Status` returned by the round-trip `C.QueryInfo` call.
`til_or_since` and `idle` are C `unsigned long` millisecond counts;
`state` and `kind` are C `int` codes. -/
structure RawReply where
  status : Nat
  state : Nat
  kind : Nat
  til_or_since : Nat
  idle : Nat
deriving DecidableEq

/-- Reinterpret an integer as a two's-complement `int64`
(the effect of Go's conversion `time.Duration(x)` from an unsigned value,
and of `int64` multiplication overflow). -/
def toInt64 (n : Int) : Int :=
  (n + 9223372036854775808) % 18446744073709551616 - 9223372036854775808

/-- Go: `time.Duration(v) * time.Millisecond` for a C `unsigned long` `v`:
convert `v` to `int64`, then multiply by `1000000` (a millisecond in
nanoseconds) with `int64` wraparound. -/
def durationOfMillis (v : Nat) : Int :=
  toInt64 (toInt64 (v : Int) * 1000000)

/-! ## The decode logic of `Client.Query`

The body of `Query` after a successful round-trip performs, in order:
`i.IdleTime = time.Duration(cl.info.idle) * time.Millisecond`, then a
`switch cl.info.state` (cases `ScreenSaverOn`, `ScreenSaverOff`,
`ScreenSaverDisabled`, with no `default`), then a `switch cl.info.kind`
(cases `ScreenSaverBlanked`, `ScreenSaverInternal`, `ScreenSaverExternal`,
with no `default`).  We embed the three sequential steps as three
functions composed in `decodeInfo`. -/

/-- The named return value `i Info` after the `IdleTime` assignment:
the zero value with `IdleTime` set. -/
def decodeBase (r : RawReply) : Info :=
  { Info.zero with IdleTime := durationOfMillis r.idle }

/-- Go: the `switch cl.info.state` block of `Query`.  There is no
`default` case: an unmatched code leaves `i` unchanged. -/
def applyState (r : RawReply) (i : Info) : Info :=
  if r.state = ScreenSaverOn then
    { i with Enabled := true
             Active := true
             ActiveTime := durationOfMillis r.til_or_since }
  else if r.state = ScreenSaverOff then
    { i with Enabled := true
             Active := false
             Countdown := durationOfMillis r.til_or_since }
  else if r.state = ScreenSaverDisabled then
    { i with Enabled := false
             Active := false }
  else i

/-- Go: the `switch cl.info.kind` block of `Query`.  There is no
`default` case: an unmatched code leaves `i` (in particular `i.Kind`,
still at its zero value `Blanked`) unchanged. -/
def applyKind (r : RawReply) (i : Info) : Info :=
  if r.kind = ScreenSaverBlanked then { i with Kind := Blanked }
  else if r.kind = ScreenSaverInternal then { i with Kind := Internal }
  else if r.kind = ScreenSaverExternal then { i with Kind := External }
  else i

/-- The full decode of a raw reply by `Query` (the code after the
`status == 0` check). -/
def decodeInfo (r : RawReply) : Info :=
  applyKind r (applyState r (decodeBase r))

/-! ## The `Query` entry point -/

/-- The one observable fact about `Client` that `Query`'s control flow
branches on: whether `cl.disp` is non-nil.  `NewClient` always produces a
client with a non-nil display; the zero-value `Client` has `disp == nil`. -/
structure Client where
  hasDisp : Bool
deriving DecidableEq

/-- The zero-value (default-initialized) `Client`: `disp` is the nil
pointer. -/
def zeroClient : Client := { hasDisp := false }

/-- A `Client` as produced by a successful `NewClient`: `disp` non-nil. -/
def liveClient : Client := { hasDisp := true }

/-- Go: the error produced on round-trip failure,
`fmt.Errorf("Error querying XSS.")`. -/
def queryErrMsg : String := "Error querying XSS."

/-- The possible outcomes of one `Query()` call: a panic, or a normal
return of `(i Info, err error)` with `err` either nil or the message of
the one error `Query` can construct. -/
inductive QueryOutcome where
  | aborts : QueryOutcome
  | returns (i : Info) (err : Option String) : QueryOutcome
deriving DecidableEq

/-- Go: `func (cl Client) Query() (i Info, err error)`.
  * `cl.disp == nil` → `panic(...)`;
  * round-trip `status == 0` → return the zero-value `i` and the error;
  * otherwise decode the reply into `i` and return it with a nil error. -/
def query (cl : Client) (r : RawReply) : QueryOutcome :=
  if cl.hasDisp = false then QueryOutcome.aborts
  else if r.status = 0 then QueryOutcome.returns Info.zero (some queryErrMsg)
  else QueryOutcome.returns (decodeInfo r) none

/-! ## The locking discipline of `Query`

`Query` is declared with a value receiver: `func (cl Client) Query()`.
Go passes the receiver by value, so every call operates on a fresh copy
of the `Client` struct — including a fresh copy of the `sync.Mutex`
field — while the pointer fields `disp` and `info` in the copy still
alias the one shared connection and decode buffer.  Consequently the
`cl.mutex.Lock()` inside a call acquires a lock private to that call.
We model two concurrent `Query` calls as an interleaving system in which
each call steps its own program counter and its own mutex copy. -/

/-- The phases of one `Query` call with respect to its critical section:
before `cl.mutex.Lock()`, between `Lock` and the deferred `Unlock`
(the round-trip into the shared buffer is in flight), and after. -/
inductive Phase where
  | ready : Phase
  | inFlight : Phase
  | done : Phase
deriving DecidableEq

/-- The per-call state of one `Query` invocation: its phase and the state
of its own copy of `cl.mutex` (made by the value receiver). -/
structure CallCopy where
  phase : Phase
  mu : Bool
deriving DecidableEq

/-- One step of a single `Query` call: `cl.mutex.Lock()` blocks only on
the call's own mutex copy, and the deferred `Unlock` releases it. -/
inductive CallStep : CallCopy → CallCopy → Prop where
  | lock : CallStep { phase := Phase.ready, mu := false }
      { phase := Phase.inFlight, mu := true }
  | unlock : CallStep { phase := Phase.inFlight, mu := true }
      { phase := Phase.done, mu := false }

/-- The joint state of two concurrent `Query` calls on the same
(pointer-shared) `Client`. -/
structure TwoCalls where
  a : CallCopy
  b : CallCopy
deriving DecidableEq

/-- Interleaving: at each step either call advances. -/
inductive SysStep : TwoCalls → TwoCalls → Prop where
  | left {a a' b : CallCopy} : CallStep a a' →
      SysStep { a := a, b := b } { a := a', b := b }
  | right {a b b' : CallCopy} : CallStep b b' →
      SysStep { a := a, b := b } { a := a, b := b' }

/-- Both calls start before their `Lock`, each with its own unlocked
mutex copy. -/
def initCalls : TwoCalls :=
  { a := { phase := Phase.ready, mu := false }
    b := { phase := Phase.ready, mu := false } }

/-- States reachable by interleaving the two calls. -/
inductive Reach : TwoCalls → Prop where
  | refl : Reach initCalls
  | step {s t : TwoCalls} : Reach s → SysStep s t → Reach t

/-! For contrast, the discipline the mutex was evidently meant to provide
(and would provide under a pointer receiver): both calls contend on one
shared mutex. -/

/-- Joint state of two `Query` calls when the mutex is genuinely shared:
one lock bit and the two calls' phases. -/
structure SharedSys where
  mu : Bool
  a : Phase
  b : Phase
deriving DecidableEq

/-- Interleaving steps when `cl.mutex` is shared: a call can enter its
critical section only when the shared mutex is free. -/
inductive SharedStep : SharedSys → SharedSys → Prop where
  | lockA {b : Phase} : SharedStep { mu := false, a := Phase.ready, b := b }
      { mu := true, a := Phase.inFlight, b := b }
  | unlockA {b : Phase} : SharedStep { mu := true, a := Phase.inFlight, b := b }
      { mu := false, a := Phase.done, b := b }
  | lockB {a : Phase} : SharedStep { mu := false, a := a, b := Phase.ready }
      { mu := true, a := a, b := Phase.inFlight }
  | unlockB {a : Phase} : SharedStep { mu := true, a := a, b := Phase.inFlight }
      { mu := false, a := a, b := Phase.done }

/-- States reachable under a shared mutex, both calls starting ready. -/
inductive SharedReach : SharedSys → Prop where
  | refl : SharedReach { mu := false, a := Phase.ready, b := Phase.ready }
  | step {s t : SharedSys} : SharedReach s → SharedStep s t → SharedReach t

/-! ## The finalizer installed by `NewClient`

`NewClient` opens the display (`C.XOpenDisplay`), allocates the reusable
decode buffer (`C.XScreenSaverAllocInfo()`), and registers
`runtime.SetFinalizer(cl, func(cl *Client) { C.XFree(unsafe.Pointer(cl.info)) })`.
The finalizer body frees only the decode buffer; no code in the package
ever calls `XCloseDisplay`. -/

/-- The OS/extension-level resources held by a `Client`'s session:
whether the display connection is open and whether the
`XScreenSaverInfo` buffer is allocated. -/
structure SessionState where
  dispOpen : Bool
  infoAllocated : Bool
deriving DecidableEq

/-- The resources held right after a successful `NewClient`. -/
def newClientResources : SessionState :=
  { dispOpen := true, infoAllocated := true }

/-- The effect of the finalizer registered by `NewClient`: it frees the
decode buffer via `C.XFree(unsafe.Pointer(cl.info))` and touches nothing
else — in particular it does not close the display connection. -/
def finalizerRelease (s : SessionState) : SessionState :=
  { s with infoAllocated := false }

/-! ## Helper lemmas about the decode functions -/

lemma toInt64_eq_self (n : Int) (h0 : 0 ≤ n) (h1 : n < 9223372036854775808) :
    toInt64 n = n := by
  unfold toInt64
  rw [Int.emod_eq_of_lt (by omega) (by omega)]
  omega

/-- For millisecond counts below the `int64` overflow threshold the
conversion to nanoseconds is exact. -/
lemma durationOfMillis_exact (v : Nat) (h : v ≤ 9223372036854) :
    durationOfMillis v = (v : Int) * 1000000 := by
  have hv : (v : Int) ≤ 9223372036854 := by exact_mod_cast h
  have h0 : (0 : Int) ≤ (v : Int) := Int.ofNat_nonneg v
  unfold durationOfMillis
  rw [toInt64_eq_self (v : Int) h0 (by omega)]
  exact toInt64_eq_self ((v : Int) * 1000000) (by positivity) (by omega)

@[simp]
lemma applyKind_Enabled (r : RawReply) (i : Info) :
    (applyKind r i).Enabled = i.Enabled := by
  unfold applyKind; split_ifs <;> rfl

@[simp]
lemma applyKind_Active (r : RawReply) (i : Info) :
    (applyKind r i).Active = i.Active := by
  unfold applyKind; split_ifs <;> rfl

@[simp]
lemma applyKind_Countdown (r : RawReply) (i : Info) :
    (applyKind r i).Countdown = i.Countdown := by
  unfold applyKind; split_ifs <;> rfl

@[simp]
lemma applyKind_ActiveTime (r : RawReply) (i : Info) :
    (applyKind r i).ActiveTime = i.ActiveTime := by
  unfold applyKind; split_ifs <;> rfl

@[simp]
lemma applyKind_IdleTime (r : RawReply) (i : Info) :
    (applyKind r i).IdleTime = i.IdleTime := by
  unfold applyKind; split_ifs <;> rfl

@[simp]
lemma applyState_Kind (r : RawReply) (i : Info) :
    (applyState r i).Kind = i.Kind := by
  unfold applyState; split_ifs <;> rfl

@[simp]
lemma applyState_IdleTime (r : RawReply) (i : Info) :
    (applyState r i).IdleTime = i.IdleTime := by
  unfold applyState; split_ifs <;> rfl

/-- On a success status, `query` returns the decoded reply and a nil
error. -/
lemma query_ok (cl : Client) (r : RawReply) (hd : cl.hasDisp = true)
    (hs : r.status ≠ 0) :
    query cl r = QueryOutcome.returns (decodeInfo r) none := by
  unfold query
  rw [hd, if_neg (by simp), if_neg hs]

/-- `IdleTime` is always the converted raw `idle` field, whatever the
state and kind codes. -/
lemma decodeInfo_IdleTime (r : RawReply) :
    (decodeInfo r).IdleTime = durationOfMillis r.idle := by
  simp [decodeInfo, decodeBase]

lemma decodeInfo_on (r : RawReply) (h : r.state = ScreenSaverOn) :
    (decodeInfo r).Enabled = true ∧ (decodeInfo r).Active = true ∧
    (decodeInfo r).ActiveTime = durationOfMillis r.til_or_since ∧
    (decodeInfo r).Countdown = 0 := by
  unfold decodeInfo
  simp only [applyKind_Enabled, applyKind_Active, applyKind_ActiveTime,
    applyKind_Countdown]
  unfold applyState
  rw [h]
  simp [Info.zero, decodeBase]

lemma decodeInfo_off (r : RawReply) (h : r.state = ScreenSaverOff) :
    (decodeInfo r).Enabled = true ∧ (decodeInfo r).Active = false ∧
    (decodeInfo r).Countdown = durationOfMillis r.til_or_since ∧
    (decodeInfo r).ActiveTime = 0 := by
  unfold decodeInfo
  simp only [applyKind_Enabled, applyKind_Active, applyKind_ActiveTime,
    applyKind_Countdown]
  unfold applyState
  rw [h]
  simp [Info.zero, decodeBase, ScreenSaverOff, ScreenSaverOn]

lemma decodeInfo_disabled (r : RawReply) (h : r.state = ScreenSaverDisabled) :
    (decodeInfo r).Enabled = false ∧ (decodeInfo r).Active = false ∧
    (decodeInfo r).Countdown = 0 ∧ (decodeInfo r).ActiveTime = 0 := by
  unfold decodeInfo
  simp only [applyKind_Enabled, applyKind_Active, applyKind_ActiveTime,
    applyKind_Countdown]
  unfold applyState
  rw [h]
  simp [Info.zero, decodeBase, ScreenSaverOff, ScreenSaverOn,
    ScreenSaverDisabled]

/-- An unmatched state code leaves every state-derived field at the Go
zero value; only `IdleTime` (and later `Kind`) are written. -/
lemma decodeInfo_unknown_state (r : RawReply)
    (h1 : r.state ≠ ScreenSaverOn) (h2 : r.state ≠ ScreenSaverOff)
    (h3 : r.state ≠ ScreenSaverDisabled) :
    (decodeInfo r).Enabled = false ∧ (decodeInfo r).Active = false ∧
    (decodeInfo r).Countdown = 0 ∧ (decodeInfo r).ActiveTime = 0 ∧
    (decodeInfo r).IdleTime = durationOfMillis r.idle := by
  unfold decodeInfo
  simp only [applyKind_Enabled, applyKind_Active, applyKind_ActiveTime,
    applyKind_Countdown, applyKind_IdleTime]
  unfold applyState
  rw [if_neg h1, if_neg h2, if_neg h3]
  simp [Info.zero, decodeBase]

/-- Invariant of the shared-mutex system: a call inside its critical
section holds the shared mutex, so the two calls are never both in
flight.  (This is the discipline the spec describes; contrast it with
`Reach` below, where each call locks its own mutex copy.) -/
lemma sharedReach_inv (s : SharedSys) (h : SharedReach s) :
    ((s.a = Phase.inFlight ∨ s.b = Phase.inFlight) → s.mu = true) ∧
    ¬(s.a = Phase.inFlight ∧ s.b = Phase.inFlight) := by
  induction h with
  | refl => simp
  | step hr hs ih => cases hs <;> simp_all

/-- Under a genuinely shared mutex, mutual exclusion of the two critical
sections holds in every reachable state. -/
lemma shared_mutex_excludes (s : SharedSys) (h : SharedReach s) :
    ¬(s.a = Phase.inFlight ∧ s.b = Phase.inFlight) :=
  (sharedReach_inv s h).2

/-! ## Claim theorems -/

/-- Claim C1: the spec asserts mutual exclusion around the
round-trip-plus-decode sequence of `Query()` — at most one round-trip in
flight at a time.  The code violates this: `Query` takes its receiver by
value, so each call locks its own copy of `cl.mutex`, and a state in
which both concurrent calls are simultaneously inside the critical
section (both round-trips in flight against the shared `cl.info` buffer)
is reachable. -/
theorem both_queries_in_flight :
    ∃ s, Reach s ∧ s.a.phase = Phase.inFlight ∧ s.b.phase = Phase.inFlight := by
  have h1 : SysStep initCalls
      { a := { phase := Phase.inFlight, mu := true }
        b := { phase := Phase.ready, mu := false } } := by
    unfold initCalls
    exact SysStep.left CallStep.lock
  have h2 : SysStep
      { a := { phase := Phase.inFlight, mu := true }
        b := { phase := Phase.ready, mu := false } }
      { a := { phase := Phase.inFlight, mu := true }
        b := { phase := Phase.inFlight, mu := true } } :=
    SysStep.right CallStep.lock
  exact ⟨_, Reach.step (Reach.step Reach.refl h1) h2, rfl, rfl⟩

/-- Claim C2 counterexample: a successful reply whose state code is
`ScreenSaverCycle` (2), outside the recognized three-valued set, does
not produce any error: `Query` returns a decoded `Info` with a nil
error, contradicting "fails with a DecodeError". -/
theorem query_unknown_state_counterexample :
    query liveClient
        { status := 1, state := 2, kind := 0, til_or_since := 5, idle := 7 } =
      QueryOutcome.returns
        { Enabled := false, Active := false, Kind := Blanked, Countdown := 0
          ActiveTime := 0, IdleTime := 7000000 } none := by
  decide

/-- Claim C2 (amended): for every successful raw reply whose saver-state
code is outside the three recognized values, `Query()` returns a nil
error (there is no decode-error path), and the returned `Info` has
`Enabled`, `Active`, `Countdown` and `ActiveTime` left at their zero
values rather than a guessed state. -/
theorem query_unknown_state_amended (cl : Client) (r : RawReply)
    (hd : cl.hasDisp = true) (hs : r.status ≠ 0)
    (h1 : r.state ≠ ScreenSaverOn) (h2 : r.state ≠ ScreenSaverOff)
    (h3 : r.state ≠ ScreenSaverDisabled) :
    query cl r = QueryOutcome.returns (decodeInfo r) none ∧
    (decodeInfo r).Enabled = false ∧ (decodeInfo r).Active = false ∧
    (decodeInfo r).Countdown = 0 ∧ (decodeInfo r).ActiveTime = 0 :=
  ⟨query_ok cl r hd hs, (decodeInfo_unknown_state r h1 h2 h3).1,
   (decodeInfo_unknown_state r h1 h2 h3).2.1,
   (decodeInfo_unknown_state r h1 h2 h3).2.2.1,
   (decodeInfo_unknown_state r h1 h2 h3).2.2.2.1⟩

/-- Witness for claim C2's amended theorem at a concrete reply with
state code 2. -/
theorem query_unknown_state_amended_witness :
    query liveClient
        { status := 1, state := 2, kind := 1, til_or_since := 4, idle := 8 } =
      QueryOutcome.returns
        (decodeInfo
          { status := 1, state := 2, kind := 1, til_or_since := 4, idle := 8 })
        none ∧
    (decodeInfo
        { status := 1, state := 2, kind := 1, til_or_since := 4, idle := 8 }).Enabled
      = false ∧
    (decodeInfo
        { status := 1, state := 2, kind := 1, til_or_since := 4, idle := 8 }).Active
      = false ∧
    (decodeInfo
        { status := 1, state := 2, kind := 1, til_or_since := 4, idle := 8 }).Countdown
      = 0 ∧
    (decodeInfo
        { status := 1, state := 2, kind := 1, til_or_since := 4, idle := 8 }).ActiveTime
      = 0 :=
  query_unknown_state_amended liveClient _ rfl (by decide) (by decide)
    (by decide) (by decide)

/-- Claim C3 counterexample: decoding a reply with the unrecognized raw
kind code 7 yields `Kind = Blanked` — the silent zero-value default whose
string form is "blanked", not an explicit "unknown" representation. -/
theorem decode_unknown_kind_counterexample :
    (decodeInfo
        { status := 1, state := 0, kind := 7, til_or_since := 5, idle := 9 }).Kind
      = Blanked ∧
    kindString
        (decodeInfo
          { status := 1, state := 0, kind := 7, til_or_since := 5, idle := 9 }).Kind
      = "blanked" := by
  decide

/-- Claim C3 (amended): for every raw kind code outside the three
recognized values, decoding leaves `Kind` at its zero value `Blanked`
(silently — the result is indistinguishable from a genuine blanked
reply), raises no error, and leaves all other decoded fields exactly as
they would be for a recognized kind code. -/
theorem decode_unknown_kind_amended (r : RawReply)
    (h1 : r.kind ≠ ScreenSaverBlanked) (h2 : r.kind ≠ ScreenSaverInternal)
    (h3 : r.kind ≠ ScreenSaverExternal) :
    (decodeInfo r).Kind = Blanked ∧
    decodeInfo r = decodeInfo { r with kind := ScreenSaverBlanked } := by
  constructor
  · unfold decodeInfo applyKind
    rw [if_neg h1, if_neg h2, if_neg h3, applyState_Kind]
    rfl
  · ext <;>
      simp [decodeInfo, applyKind, applyState, decodeBase, Info.zero,
        h1, h2, h3, apply_ite Info.Kind]

/-- Witness for claim C3's amended theorem at a concrete reply with
kind code 9. -/
theorem decode_unknown_kind_amended_witness :
    (decodeInfo
        { status := 1, state := 1, kind := 9, til_or_since := 3, idle := 4 }).Kind
      = Blanked ∧
    decodeInfo { status := 1, state := 1, kind := 9, til_or_since := 3, idle := 4 }
      = decodeInfo
          { status := 1, state := 1, kind := ScreenSaverBlanked,
            til_or_since := 3, idle := 4 } :=
  decode_unknown_kind_amended _ (by decide) (by decide) (by decide)

/-- Claim C4: for every successful raw reply with a recognized
saver-state code, the returned `Info` matches the three-row decode
table: `ScreenSaverOn` → `Enabled=true, Active=true`, `ActiveTime` equal
to the raw `til_or_since` millisecond count, `Countdown=0`;
`ScreenSaverOff` → `Enabled=true, Active=false`, `Countdown` equal to
the raw count, `ActiveTime=0`; `ScreenSaverDisabled` →
`Enabled=false, Active=false`, both durations zero regardless of the
other raw fields. -/
theorem query_decode_table (cl : Client) (r : RawReply)
    (hd : cl.hasDisp = true) (hs : r.status ≠ 0)
    (hb : r.til_or_since ≤ 9223372036854) :
    query cl r = QueryOutcome.returns (decodeInfo r) none ∧
    (r.state = ScreenSaverOn →
      (decodeInfo r).Enabled = true ∧ (decodeInfo r).Active = true ∧
      (decodeInfo r).ActiveTime = (r.til_or_since : Int) * 1000000 ∧
      (decodeInfo r).Countdown = 0) ∧
    (r.state = ScreenSaverOff →
      (decodeInfo r).Enabled = true ∧ (decodeInfo r).Active = false ∧
      (decodeInfo r).Countdown = (r.til_or_since : Int) * 1000000 ∧
      (decodeInfo r).ActiveTime = 0) ∧
    (r.state = ScreenSaverDisabled →
      (decodeInfo r).Enabled = false ∧ (decodeInfo r).Active = false ∧
      (decodeInfo r).Countdown = 0 ∧ (decodeInfo r).ActiveTime = 0) := by
  refine ⟨query_ok cl r hd hs, ?_, ?_, fun h => decodeInfo_disabled r h⟩
  · intro h
    have hx := decodeInfo_on r h
    rw [durationOfMillis_exact r.til_or_since hb] at hx
    exact hx
  · intro h
    have hx := decodeInfo_off r h
    rw [durationOfMillis_exact r.til_or_since hb] at hx
    exact hx

/-- Witness for claim C4 at a concrete reply with state code
`ScreenSaverOn`. -/
theorem query_decode_table_witness :
    (decodeInfo
        { status := 1, state := 1, kind := 2, til_or_since := 42, idle := 5 }).ActiveTime
      = ((42 : Nat) : Int) * 1000000 :=
  ((query_decode_table liveClient
      { status := 1, state := 1, kind := 2, til_or_since := 42, idle := 5 }
      rfl (by decide) (by decide)).2.1 rfl).2.2.1

/-- Claim C5: for every `Info` produced by a successful `Query()` (nil
error), `Active = true` implies `Enabled = true`. -/
theorem active_implies_enabled (cl : Client) (r : RawReply) (i : Info)
    (h : query cl r = QueryOutcome.returns i none) (ha : i.Active = true) :
    i.Enabled = true := by
  have hi : i = decodeInfo r := by
    unfold query at h
    split_ifs at h <;> simp_all
  subst hi
  by_cases hOn : r.state = ScreenSaverOn
  · exact (decodeInfo_on r hOn).1
  by_cases hOff : r.state = ScreenSaverOff
  · rw [(decodeInfo_off r hOff).2.1] at ha
    simp at ha
  by_cases hDis : r.state = ScreenSaverDisabled
  · rw [(decodeInfo_disabled r hDis).2.1] at ha
    simp at ha
  · rw [(decodeInfo_unknown_state r hOn hOff hDis).2.1] at ha
    simp at ha

/-- Witness for claim C5 at a concrete reply with state code
`ScreenSaverOn`. -/
theorem active_implies_enabled_witness :
    (decodeInfo
        { status := 1, state := 1, kind := 0, til_or_since := 2, idle := 3 }).Enabled
      = true :=
  active_implies_enabled liveClient
    { status := 1, state := 1, kind := 0, til_or_since := 2, idle := 3 }
    _ rfl (by decide)

/-- Claim C6: for every successful `Query()`, the raw `idle` millisecond
count `V` is converted to an `IdleTime` of exactly `V` milliseconds
(`V * 1000000` nanoseconds), with no precision loss, for every `V` below
the `int64` nanosecond overflow threshold — in particular for
`V ∈ {0, 1, 1000, 86400000}`. -/
theorem idle_conversion_exact (cl : Client) (r : RawReply)
    (hd : cl.hasDisp = true) (hs : r.status ≠ 0)
    (hb : r.idle ≤ 9223372036854) :
    ∃ i, query cl r = QueryOutcome.returns i none ∧
      i.IdleTime = (r.idle : Int) * 1000000 :=
  ⟨decodeInfo r, query_ok cl r hd hs, by
    rw [decodeInfo_IdleTime, durationOfMillis_exact r.idle hb]⟩

/-- Witness for claim C6 at each of the four listed millisecond counts
`0`, `1`, `1000` and `86400000`. -/
theorem idle_conversion_exact_witness :
    (∃ i, query liveClient
        { status := 1, state := 0, kind := 0, til_or_since := 0, idle := 0 } =
          QueryOutcome.returns i none ∧
        i.IdleTime = ((0 : Nat) : Int) * 1000000) ∧
    (∃ i, query liveClient
        { status := 1, state := 0, kind := 0, til_or_since := 0, idle := 1 } =
          QueryOutcome.returns i none ∧
        i.IdleTime = ((1 : Nat) : Int) * 1000000) ∧
    (∃ i, query liveClient
        { status := 1, state := 0, kind := 0, til_or_since := 0, idle := 1000 } =
          QueryOutcome.returns i none ∧
        i.IdleTime = ((1000 : Nat) : Int) * 1000000) ∧
    (∃ i, query liveClient
        { status := 1, state := 0, kind := 0, til_or_since := 0,
          idle := 86400000 } =
          QueryOutcome.returns i none ∧
        i.IdleTime = ((86400000 : Nat) : Int) * 1000000) :=
  ⟨idle_conversion_exact liveClient _ rfl (by decide) (by decide),
   idle_conversion_exact liveClient _ rfl (by decide) (by decide),
   idle_conversion_exact liveClient _ rfl (by decide) (by decide),
   idle_conversion_exact liveClient _ rfl (by decide) (by decide)⟩

/-- Claim C7: whenever the round-trip reports failure (`status == 0`),
`Query()` returns the query error and the zero-value `Info`, with no
field decoded from the reply buffer. -/
theorem query_failure_returns_zero (cl : Client) (r : RawReply)
    (hd : cl.hasDisp = true) (hs : r.status = 0) :
    query cl r = QueryOutcome.returns Info.zero (some queryErrMsg) := by
  unfold query
  rw [hd, if_neg (by simp), if_pos hs]

/-- Witness for claim C7 at a concrete failed round-trip whose buffer
fields are nonzero (none of them reach the returned `Info`). -/
theorem query_failure_returns_zero_witness :
    query liveClient
        { status := 0, state := 1, kind := 1, til_or_since := 5, idle := 6 } =
      QueryOutcome.returns Info.zero (some queryErrMsg) :=
  query_failure_returns_zero liveClient
    { status := 0, state := 1, kind := 1, til_or_since := 5, idle := 6 }
    rfl rfl

/-- Claim C8: calling `Query()` on a `Client` not produced by
`NewClient` — the zero-value `Client`, whose `disp` is nil — panics for
every raw reply, never returning an answer or a recoverable error. -/
theorem query_zero_client_aborts (r : RawReply) :
    query zeroClient r = QueryOutcome.aborts := rfl

/-- Claim C9 counterexample: running the finalizer that `NewClient`
registers (the only release path in the package) frees the decode buffer
but leaves the display connection open: the claim that the connection is
released when the `Client` becomes unreachable is false. -/
theorem finalizer_leaves_display_open :
    (finalizerRelease newClientResources).dispOpen = true ∧
    (finalizerRelease newClientResources).infoAllocated = false := by
  decide

/-- Claim C9 (amended): when the owning `Client` becomes unreachable,
the finalizer releases only the decode buffer; the display connection is
never released by the package, and re-running the release leaves the
resource state unchanged. -/
theorem finalizer_releases_buffer_only (s : SessionState) :
    (finalizerRelease s).infoAllocated = false ∧
    (finalizerRelease s).dispOpen = s.dispOpen ∧
    finalizerRelease (finalizerRelease s) = finalizerRelease s :=
  ⟨rfl, rfl, rfl⟩

/-- Claim C10: for every raw reply whose round-trip status reports
success, `Query()` returns a nil error whatever the state and kind
codes; when the state code is unrecognized the returned `Info` has
`Enabled=false, Active=false, Countdown=0, ActiveTime=0`, while
`IdleTime` is still the converted raw `idle` field. -/
theorem query_success_total (cl : Client) (r : RawReply)
    (hd : cl.hasDisp = true) (hs : r.status ≠ 0) :
    query cl r = QueryOutcome.returns (decodeInfo r) none ∧
    (r.state ≠ ScreenSaverOn → r.state ≠ ScreenSaverOff →
      r.state ≠ ScreenSaverDisabled →
      (decodeInfo r).Enabled = false ∧ (decodeInfo r).Active = false ∧
      (decodeInfo r).Countdown = 0 ∧ (decodeInfo r).ActiveTime = 0 ∧
      (decodeInfo r).IdleTime = durationOfMillis r.idle) :=
  ⟨query_ok cl r hd hs, fun h1 h2 h3 => decodeInfo_unknown_state r h1 h2 h3⟩

/-- Witness for claim C10 at a concrete successful reply with
unrecognized state code 2 and unrecognized kind code 5. -/
theorem query_success_total_witness :
    query liveClient
        { status := 1, state := 2, kind := 5, til_or_since := 11, idle := 13 } =
      QueryOutcome.returns
        (decodeInfo
          { status := 1, state := 2, kind := 5, til_or_since := 11, idle := 13 })
        none ∧
    ((2 : Nat) ≠ ScreenSaverOn → (2 : Nat) ≠ ScreenSaverOff →
      (2 : Nat) ≠ ScreenSaverDisabled →
      (decodeInfo
          { status := 1, state := 2, kind := 5, til_or_since := 11,
            idle := 13 }).Enabled = false ∧
      (decodeInfo
          { status := 1, state := 2, kind := 5, til_or_since := 11,
            idle := 13 }).Active = false ∧
      (decodeInfo
          { status := 1, state := 2, kind := 5, til_or_since := 11,
            idle := 13 }).Countdown = 0 ∧
      (decodeInfo
          { status := 1, state := 2, kind := 5, til_or_since := 11,
            idle := 13 }).ActiveTime = 0 ∧
      (decodeInfo
          { status := 1, state := 2, kind := 5, til_or_since := 11,
            idle := 13 }).IdleTime = durationOfMillis 13) :=
  query_success_total liveClient
    { status := 1, state := 2, kind := 5, til_or_since := 11, idle := 13 }
    rfl (by decide)

end Xss
